import Mathlib

/-
Verification of the NativeScrollSlider specification against a shallow
embedding of the repository code.

Conventions of the embedding:
- Pixel quantities (widths, gaps, paddings, scroll offsets) are rationals,
  modelling host numbers on the inputs the claims are about.
- Indices and counts are integers or naturals.
- The host remainder operator on numbers is modelled by Int.tmod
  (truncated remainder), which agrees with it on the relevant inputs.
- Mutation of instance fields is modelled by explicit state passing.
-/

namespace NativeScrollSlider

/-! ## helpers/utils.js -/

/-- Embedding of parseMinSlideWidth for numeric inputs: a falsy (zero)
value yields 0, otherwise the number itself is returned.  String inputs of
the source are parsed by the host before reaching the numeric core and are
outside this model. -/
def parseMinSlideWidth (minWidth : ℚ) : ℚ :=
  if minWidth = 0 then 0 else minWidth

/-- Result record of calculateSlideWidth. -/
structure SlideWidthResult where
  slideWidth : ℚ
  totalNeededWidth : ℚ
  leftPadding : ℚ
deriving Repr, DecidableEq

/-- Embedding of calculateSlideWidth (helpers/config.js lines 319-340). -/
def calculateSlideWidth (containerWidth slidesToShow gap minSlideWidth : ℚ) :
    SlideWidthResult :=
  let totalGaps := (slidesToShow - 1) * gap
  let calculatedSlideWidth := (containerWidth - totalGaps) / slidesToShow
  let parsedMinWidth := parseMinSlideWidth minSlideWidth
  if 0 < parsedMinWidth ∧ calculatedSlideWidth < parsedMinWidth then
    let slideWidth := parsedMinWidth
    let totalNeededWidth := slideWidth * slidesToShow + totalGaps
    ⟨slideWidth, totalNeededWidth, max 0 ((containerWidth - totalNeededWidth) / 2)⟩
  else
    let slideWidth := calculatedSlideWidth
    let totalNeededWidth := slideWidth * slidesToShow + totalGaps
    ⟨slideWidth, totalNeededWidth, max 0 ((containerWidth - totalNeededWidth) / 2)⟩

/-! ## Options and Object.assign (helpers/config.js) -/

/-- A partial override object, as used for the settings of a responsive
breakpoint.  A none field is an absent key, so Object.assign leaves the
target value in place. -/
structure Settings where
  slidesToShow : Option ℚ := none
  slidesToScroll : Option ℚ := none
  infinite : Option Bool := none
  bounceBack : Option Bool := none
  centerMode : Option Bool := none
  autoplay : Option Bool := none
  autoplaySpeed : Option ℚ := none
  gap : Option ℚ := none
  startSlide : Option ℚ := none
  prevElement : Option String := none
  nextElement : Option String := none
  minSlideWidth : Option ℚ := none
  showOverflow : Option Bool := none
  overflowAmount : Option ℚ := none
  containerMaxWidth : Option ℚ := none
  basePadding : Option ℚ := none
deriving Repr, DecidableEq

/-- A responsive breakpoint entry: a width threshold and partial settings. -/
structure Breakpoint where
  breakpoint : ℚ
  settings : Settings
deriving Repr, DecidableEq

/-- A fully resolved options object (the shape of DEFAULT_CONFIG). -/
structure Options where
  slidesToShow : ℚ
  slidesToScroll : ℚ
  infinite : Bool
  bounceBack : Bool
  centerMode : Bool
  autoplay : Bool
  autoplaySpeed : ℚ
  gap : ℚ
  startSlide : ℚ
  responsive : List Breakpoint
  prevElement : String
  nextElement : String
  minSlideWidth : ℚ
  showOverflow : Bool
  overflowAmount : ℚ
  containerMaxWidth : ℚ
  basePadding : ℚ
deriving Repr, DecidableEq

/-- A partial options object (data attribute config or constructor
options): the breakpoint settings fields plus an optional responsive
list. -/
structure OptionsPatch extends Settings where
  responsive : Option (List Breakpoint) := none
deriving Repr, DecidableEq

/-- Object.assign of a partial settings object onto resolved options. -/
def objectAssignSettings (o : Options) (s : Settings) : Options :=
  { slidesToShow := s.slidesToShow.getD o.slidesToShow
    slidesToScroll := s.slidesToScroll.getD o.slidesToScroll
    infinite := s.infinite.getD o.infinite
    bounceBack := s.bounceBack.getD o.bounceBack
    centerMode := s.centerMode.getD o.centerMode
    autoplay := s.autoplay.getD o.autoplay
    autoplaySpeed := s.autoplaySpeed.getD o.autoplaySpeed
    gap := s.gap.getD o.gap
    startSlide := s.startSlide.getD o.startSlide
    responsive := o.responsive
    prevElement := s.prevElement.getD o.prevElement
    nextElement := s.nextElement.getD o.nextElement
    minSlideWidth := s.minSlideWidth.getD o.minSlideWidth
    showOverflow := s.showOverflow.getD o.showOverflow
    overflowAmount := s.overflowAmount.getD o.overflowAmount
    containerMaxWidth := s.containerMaxWidth.getD o.containerMaxWidth
    basePadding := s.basePadding.getD o.basePadding }

/-- Object.assign of a partial options object onto resolved options. -/
def objectAssignPatch (o : Options) (p : OptionsPatch) : Options :=
  { objectAssignSettings o p.toSettings with
    responsive := p.responsive.getD o.responsive }

/-- The empty partial options object (no keys). -/
def emptyPatch : OptionsPatch := {}

/-- Embedding of DEFAULT_CONFIG (helpers/config.js lines 10-54). -/
def DEFAULT_CONFIG : Options :=
  { slidesToShow := 4
    slidesToScroll := 1
    infinite := false
    bounceBack := false
    centerMode := false
    autoplay := false
    autoplaySpeed := 3000
    gap := 24
    startSlide := 0
    responsive :=
      [ ⟨1200, { slidesToShow := some 3 }⟩
      , ⟨992, { slidesToShow := some 2 }⟩
      , ⟨768, { slidesToShow := some 1 }⟩
      , ⟨576, { slidesToShow := some 1 }⟩ ]
    prevElement := ".prev, .slider-prev, .slider-grid-prev"
    nextElement := ".next, .slider-next, .slider-grid-next"
    minSlideWidth := 0
    showOverflow := false
    overflowAmount := 1 / 2
    containerMaxWidth := 1200
    basePadding := 35 }

/-- Outcome of reading the data-slider-config attribute: absent (or
falsy), present but rejected by the JSON parser, or parsed to a partial
options object.  The JSON parser itself is host functionality outside the
model. -/
inductive DataAttr where
  | missing
  | invalidJson
  | valid (config : OptionsPatch)
deriving Repr, DecidableEq

/-- Result of buildConfig: the merged options plus whether the invalid
JSON diagnostic was emitted. -/
structure BuildConfigResult where
  config : Options
  warned : Bool
deriving Repr, DecidableEq

/-- Embedding of buildConfig (helpers/config.js lines 63-76): the invalid
fragment is caught, replaced by the empty object and a warning is logged;
then merge defaults, data config and passed options left to right. -/
def buildConfig (attr : DataAttr) (passedOptions : OptionsPatch) :
    BuildConfigResult :=
  let dataConfig : OptionsPatch × Bool :=
    match attr with
    | .missing => (emptyPatch, false)
    | .invalidJson => (emptyPatch, true)
    | .valid c => (c, false)
  ⟨objectAssignPatch (objectAssignPatch DEFAULT_CONFIG dataConfig.1) passedOptions,
    dataConfig.2⟩

/-! ## applyResponsiveSettings (helpers/config.js lines 84-101) -/

/-- Stable insertion of a breakpoint into a list sorted by descending
threshold: the inserted element goes after every element with a greater or
equal threshold, modelling the stable host sort with comparator
b.breakpoint - a.breakpoint. -/
def insertBreakpointDesc (b : Breakpoint) : List Breakpoint → List Breakpoint
  | [] => [b]
  | c :: rest =>
      if c.breakpoint < b.breakpoint then b :: c :: rest
      else c :: insertBreakpointDesc b rest

/-- Stable sort of the responsive list by descending threshold. -/
def sortBreakpointsDesc : List Breakpoint → List Breakpoint
  | [] => []
  | b :: rest => insertBreakpointDesc b (sortBreakpointsDesc rest)

/-- Embedding of applyResponsiveSettings: sort breakpoints largest first,
then cascade every breakpoint whose threshold is at least the viewport
width onto the current options. -/
def applyResponsiveSettings (width : ℚ) (options : Options) : Options :=
  let sortedBreakpoints := sortBreakpointsDesc options.responsive
  sortedBreakpoints.foldl
    (fun currentOptions bp =>
      if width ≤ bp.breakpoint then objectAssignSettings currentOptions bp.settings
      else currentOptions)
    options

/-! ## Navigation (modules/navigation.js, src/unnamed/part_003) -/

/-- Geometry of one slide element: its offsetLeft and offsetWidth. -/
structure SlideGeom where
  offsetLeft : ℚ
  offsetWidth : ℚ
deriving Repr, DecidableEq

/-- A scroll request issued through track.scrollTo. -/
structure ScrollRequest where
  left : ℚ
  smooth : Bool
deriving Repr, DecidableEq

/-- The slice of the slider instance read by the navigation functions. -/
structure NavContext where
  infinite : Bool
  bounceBack : Bool
  centerMode : Bool
  slidesToShow : ℤ
  slidesToScroll : ℤ
  gap : ℚ
  totalSlides : ℤ
  currentSlide : ℤ
  slidePositions : List ℚ
  slides : List SlideGeom
  allSlides : Option (List SlideGeom)
  trackScrollLeft : ℚ
  trackOffsetWidth : ℚ
  trackPaddingLeft : ℚ
  trackPaddingRight : ℚ
  containerOffsetWidth : ℚ
  containerPaddingLeft : ℚ
  containerPaddingRight : ℚ
deriving Repr

/-- Outcome of a navigation call: the scroll request issued, if any, and
the current slide index afterwards. -/
structure NavResult where
  request : Option ScrollRequest
  currentSlide : ℤ
deriving Repr, DecidableEq

/-- Embedding of getActualSlidesToShow (helpers/utils.js lines 296-307):
how many slides fit the container, capped at the configured count. -/
def getActualSlidesToShow (containerWidth : ℚ) (slides : List SlideGeom)
    (gap : ℚ) (configuredSlidesToShow : ℤ) : ℤ :=
  if slides.isEmpty then configuredSlidesToShow
  else
    let slideWidth := (slides.headD ⟨0, 0⟩).offsetWidth
    min ⌊(containerWidth + gap) / (slideWidth + gap)⌋ configuredSlidesToShow

/-- Embedding of findCurrentCenterSlideIndex (modules/infinite-scroll.js
lines 64-90): index of the slide whose center is nearest the center of
the visible area; earlier slides win ties.  The none accumulator models
the initial infinite distance. -/
def findCurrentCenterSlideIndex (ctx : NavContext) : ℕ :=
  let visibleTrackWidth :=
    ctx.trackOffsetWidth - ctx.trackPaddingLeft - ctx.trackPaddingRight
  let centerPoint := ctx.trackScrollLeft + visibleTrackWidth / 2
  let slidesToUse := ctx.allSlides.getD ctx.slides
  (slidesToUse.enum.foldl
    (fun acc p =>
      let slideCenter :=
        p.2.offsetLeft + p.2.offsetWidth / 2 - ctx.trackPaddingLeft
      let distance := |centerPoint - slideCenter|
      match acc.2 with
      | none => (p.1, some distance)
      | some d => if distance < d then (p.1, some distance) else acc)
    ((0 : ℕ), (none : Option ℚ))).1

/-- Embedding of goToCenterSlide (modules/infinite-scroll.js lines
99-123): out of range indices are rejected, otherwise a smooth scroll
centering the slide is requested. -/
def goToCenterSlide (ctx : NavContext) (slideIndex : ℤ) :
    Option ScrollRequest :=
  let slidesToUse := ctx.allSlides.getD ctx.slides
  if slideIndex < 0 ∨ (slidesToUse.length : ℤ) ≤ slideIndex then none
  else
    let targetSlide := slidesToUse.getD slideIndex.toNat ⟨0, 0⟩
    let visibleTrackWidth :=
      ctx.trackOffsetWidth - ctx.trackPaddingLeft - ctx.trackPaddingRight
    let slideLeft := targetSlide.offsetLeft - ctx.trackPaddingLeft
    some ⟨slideLeft - visibleTrackWidth / 2 + targetSlide.offsetWidth / 2, true⟩

/-- Embedding of goToSlide (part_003 lines 157-198): a no-op in infinite
mode and for out-of-range indices; otherwise requests a smooth scroll to
the position from slidePositions (shifted by the clone block in bounce
mode, and by the centering adjustment in center mode) and updates
currentSlide immediately.  The function is total: no input raises. -/
def goToSlide (ctx : NavContext) (slideIndex : ℤ) : NavResult :=
  if ctx.infinite then ⟨none, ctx.currentSlide⟩
  else if slideIndex < 0 ∨ ctx.totalSlides ≤ slideIndex then
    ⟨none, ctx.currentSlide⟩
  else
    let baseTarget :=
      if ctx.bounceBack then
        let cloneCount := max ctx.slidesToShow 2
        ctx.slidePositions.getD (cloneCount + slideIndex).toNat 0
      else ctx.slidePositions.getD slideIndex.toNat 0
    let target :=
      if ctx.centerMode then
        let containerInnerWidth :=
          ctx.containerOffsetWidth - ctx.containerPaddingLeft -
            ctx.containerPaddingRight
        baseTarget - containerInnerWidth / 2 +
          (ctx.slides.headD ⟨0, 0⟩).offsetWidth / 2 - ctx.containerPaddingLeft
      else baseTarget
    ⟨some ⟨target, true⟩, slideIndex⟩

/-- Embedding of next (part_003 lines 72-107).  The host remainder in the
bounce branch is Int.tmod. -/
def next (ctx : NavContext) : NavResult :=
  if ctx.infinite then
    let slideWidth := (ctx.slides.headD ⟨0, 0⟩).offsetWidth + ctx.gap
    let scrollAmount := slideWidth * ctx.slidesToScroll
    if ctx.centerMode then
      let currentCenterSlide := (findCurrentCenterSlideIndex ctx : ℤ)
      ⟨goToCenterSlide ctx (currentCenterSlide + ctx.slidesToScroll),
        ctx.currentSlide⟩
    else ⟨some ⟨ctx.trackScrollLeft + scrollAmount, true⟩, ctx.currentSlide⟩
  else
    let actualSlidesToShow :=
      getActualSlidesToShow ctx.containerOffsetWidth ctx.slides ctx.gap
        ctx.slidesToShow
    let nextSlide :=
      if ctx.bounceBack then
        (ctx.currentSlide + ctx.slidesToScroll).tmod ctx.totalSlides
      else
        min (ctx.currentSlide + ctx.slidesToScroll)
          (ctx.totalSlides - actualSlidesToShow)
    goToSlide ctx nextSlide

/-- Embedding of prev (part_003 lines 115-148). -/
def prev (ctx : NavContext) : NavResult :=
  if ctx.infinite then
    let slideWidth := (ctx.slides.headD ⟨0, 0⟩).offsetWidth + ctx.gap
    let scrollAmount := slideWidth * ctx.slidesToScroll
    if ctx.centerMode then
      let currentCenterSlide := (findCurrentCenterSlideIndex ctx : ℤ)
      ⟨goToCenterSlide ctx (currentCenterSlide - ctx.slidesToScroll),
        ctx.currentSlide⟩
    else ⟨some ⟨ctx.trackScrollLeft - scrollAmount, true⟩, ctx.currentSlide⟩
  else
    let prevSlide :=
      if ctx.bounceBack then
        let p := ctx.currentSlide - ctx.slidesToScroll
        if p < 0 then ctx.totalSlides + p else p
      else max (ctx.currentSlide - ctx.slidesToScroll) 0
    goToSlide ctx prevSlide

/-- One click of the next control: the index update it performs on the
instance. -/
def stepNext (ctx : NavContext) : NavContext :=
  { ctx with currentSlide := (next ctx).currentSlide }

/-! ## Infinite scroll teleport (modules/infinite-scroll.js) -/

/-- The mutable track state touched by seamlessJump: scroll offset and
the inline scroll-behavior style (the empty string models an unset
style). -/
structure TrackState where
  scrollLeft : ℚ
  scrollBehavior : String
deriving Repr, DecidableEq

/-- Result of seamlessJump: the behavior in force while the jump is
performed, and the track state once the delayed restore has run. -/
structure SeamlessJumpResult where
  behaviorDuringJump : String
  track : TrackState
deriving Repr, DecidableEq

/-- Embedding of seamlessJump (modules/infinite-scroll.js lines 44-56):
smooth scrolling is disabled (behavior auto) for the jump, the offset is
set, and the original behavior (or smooth, when it was unset) is restored
by the scheduled timeout. -/
def seamlessJump (track : TrackState) (newPosition : ℚ) :
    SeamlessJumpResult :=
  let originalBehavior := track.scrollBehavior
  ⟨"auto",
    ⟨newPosition, if originalBehavior = "" then "smooth" else originalBehavior⟩⟩

/-- The slice of the slider instance read by handleInfiniteScroll. -/
structure InfiniteContext where
  infiniteScrollSetup : Bool
  totalSlides : ℕ
  slideOffsetWidth : ℚ
  gap : ℚ
  slidePositions : List ℚ
  initialCloneCount : ℕ
  track : TrackState
deriving Repr, DecidableEq

/-- Embedding of handleInfiniteScroll (modules/infinite-scroll.js lines
13-35): nothing happens before setup completes; within two slide widths
of either strip boundary the offset is teleported by one full cycle of
real items via seamlessJump, otherwise the state is untouched.  The
second component records the jump that was performed, if any. -/
def handleInfiniteScroll (ctx : InfiniteContext) :
    InfiniteContext × Option SeamlessJumpResult :=
  if ¬ctx.infiniteScrollSetup then (ctx, none)
  else
    let scrollLeft := ctx.track.scrollLeft
    let slideWidth := ctx.slideOffsetWidth + ctx.gap
    let totalOriginalWidth := (ctx.totalSlides : ℚ) * slideWidth
    let leftBoundary := slideWidth * 2
    let rightBoundary :=
      ctx.slidePositions.getD (ctx.initialCloneCount + ctx.totalSlides) 0 -
        slideWidth * 2
    if scrollLeft ≤ leftBoundary then
      let jump := seamlessJump ctx.track (scrollLeft + totalOriginalWidth)
      ({ ctx with track := jump.track }, some jump)
    else if rightBoundary ≤ scrollLeft then
      let jump := seamlessJump ctx.track (scrollLeft - totalOriginalWidth)
      ({ ctx with track := jump.track }, some jump)
    else (ctx, none)

/-! ## Clone strips (helpers/config.js, setupTrueInfinite, setupBounceBack) -/

/-- A child of the track element: a real slide, an infinite-mode clone
tagged with its originalIndex back-reference, or a bounce-mode clone
(which carries no originalIndex tag in the source). -/
inductive TrackChild where
  | real (index : ℕ)
  | infiniteClone (originalIndex : ℤ)
  | bounceClone (index : ℕ)
deriving Repr, DecidableEq

/-- Whether a child matches the .infinite-clone selector. -/
def TrackChild.isInfiniteClone : TrackChild → Bool
  | .infiniteClone _ => true
  | _ => false

/-- Whether a child matches the .bounce-clone selector. -/
def TrackChild.isBounceClone : TrackChild → Bool
  | .bounceClone _ => true
  | _ => false

/-- A loop of track.appendChild calls: iteration i appends f i. -/
def appendLoop (c : ℕ) (f : ℕ → TrackChild) (track : List TrackChild) :
    List TrackChild :=
  (List.range c).foldl (fun t i => t ++ [f i]) track

/-- A loop of track.insertBefore(·, track.firstChild) calls: iteration i
puts f i at the front, so the block ends up reversed relative to
insertion order. -/
def prependLoop (c : ℕ) (f : ℕ → TrackChild) (track : List TrackChild) :
    List TrackChild :=
  (List.range c).foldl (fun t i => f i :: t) track

/-- The real slides of the track before any cloning. -/
def realSlides (n : ℕ) : List TrackChild :=
  (List.range n).map .real

/-- Embedding of the clone layout built by setupTrueInfinite
(modules/infinite-scroll.js lines 144-160, identical in part_001 lines
563-579): append clones of i % n, then prepend clones of
(n - 1 - i % n) % n. -/
def setupTrueInfinite (n c : ℕ) : List TrackChild :=
  prependLoop c (fun i => .infiniteClone (((n - 1 - i % n) % n : ℕ) : ℤ))
    (appendLoop c (fun i => .infiniteClone ((i % n : ℕ) : ℤ)) (realSlides n))

/-- The clone count chosen by setupTrueInfinite: enough to cover two
viewport widths per side, floored at the real item count. -/
def clonesNeeded (containerWidth slideOffsetWidth gap : ℚ) (n : ℕ) : ℕ :=
  max n ((⌈containerWidth / (slideOffsetWidth + gap)⌉).toNat * 2)

/-- Embedding of the infinite branch of createClonedSlides
(helpers/config.js lines 194-211), also the layout of setupClonedSlides
with mode infinite (part_002 lines 483-500) and of the 0.0.1
setupTrueInfinite (part_001 lines 1768-1784): append clones of i % n,
then prepend clones of (n - c + i) % n, where the source remainder is the
host truncated remainder. -/
def createClonedSlidesInfinite (n c : ℕ) : List TrackChild :=
  prependLoop c (fun i => .infiniteClone (((n : ℤ) - c + i).tmod n))
    (appendLoop c (fun i => .infiniteClone ((i % n : ℕ) : ℤ)) (realSlides n))

/-- Embedding of the bounce branch of createClonedSlides
(helpers/config.js lines 212-226) and setupBounceBack: append clones of
the first c slides, then prepend clones of slides n - c … n - 1. -/
def setupBounceBack (n c : ℕ) : List TrackChild :=
  prependLoop c (fun i => .bounceClone (n - c + i))
    (appendLoop c (fun i => .bounceClone i) (realSlides n))

/-! ## Teardown (part_001 lines 1241-1251, helpers/config.js lines
257-262) -/

/-- The timers and strip of one slider instance, as touched by destroy.
A true flag is a scheduled interval or timeout. -/
structure SliderState where
  autoplayInterval : Bool
  scrollTimeout : Bool
  infiniteScrollTimeout : Bool
  strip : List TrackChild
deriving Repr, DecidableEq

/-- Embedding of stopAutoplay: clears the autoplay interval. -/
def stopAutoplay (s : SliderState) : SliderState :=
  { s with autoplayInterval := false }

/-- The clone selector passed to removeClonedSlides. -/
inductive CloneSelector where
  | infiniteClone
  | bounceClone
deriving Repr, DecidableEq

/-- Embedding of removeClonedSlides (helpers/config.js lines 257-262):
removes the children matching the given clone selector. -/
def removeClonedSlides (strip : List TrackChild) (sel : CloneSelector) :
    List TrackChild :=
  match sel with
  | .infiniteClone => strip.filter (fun ch => ¬ch.isInfiniteClone)
  | .bounceClone => strip.filter (fun ch => ¬ch.isBounceClone)

/-- Embedding of destroy (part_001 lines 1241-1251): stop the autoplay
interval, clear the two tracked timeouts, and remove every child matching
the .infinite-clone selector. -/
def destroy (s : SliderState) : SliderState :=
  let s1 := stopAutoplay s
  let s2 := { s1 with scrollTimeout := false, infiniteScrollTimeout := false }
  { s2 with strip := s2.strip.filter (fun ch => ¬ch.isInfiniteClone) }

/-! ## Autoplay clone management of the 0.0.1 class (part_001 lines
1928-2075 and 2360-2389, identical in part_002) -/

/-- The fixed geometry of an infinite-mode slider during autoplay.  All
slides share one offsetWidth (applySlideWidths sets the same width on
every slide and clones copy it), so the child at strip index i sits at
offsetLeft trackPaddingLeft + i * (slideOffsetWidth + gap). -/
structure InfiniteGeom where
  totalSlides : ℕ
  slideOffsetWidth : ℚ
  gap : ℚ
  containerWidth : ℚ
  trackPaddingLeft : ℚ
  slidesToScroll : ℚ
deriving Repr, DecidableEq

/-- The mutable state driven by autoplay ticks: the strip children and
the scroll offset. -/
structure AutoplayState where
  strip : List TrackChild
  scrollLeft : ℚ
deriving Repr, DecidableEq

/-- The number of children matching querySelectorAll with the
.infinite-clone selector. -/
def cloneCount (strip : List TrackChild) : ℕ :=
  (strip.filter (·.isInfiniteClone)).length

/-- offsetLeft of the child at strip index i under the uniform layout. -/
def childOffsetLeft (G : InfiniteGeom) (i : ℕ) : ℚ :=
  G.trackPaddingLeft + i * (G.slideOffsetWidth + G.gap)

/-- scrollWidth of the track under the uniform layout: both paddings plus
the children and the gaps between them. -/
def trackScrollWidth (G : InfiniteGeom) (strip : List TrackChild) : ℚ :=
  2 * G.trackPaddingLeft + strip.length * (G.slideOffsetWidth + G.gap) - G.gap

/-- Embedding of addClonesAtEnd (part_001 lines 1970-1981): append one
full cycle of clones tagged 0 … n-1. -/
def addClonesAtEnd (G : InfiniteGeom) (st : AutoplayState) : AutoplayState :=
  { st with
    strip :=
      st.strip ++ (List.range G.totalSlides).map (fun i => .infiniteClone i) }

/-- Embedding of addClonesAtStart (part_001 lines 1988-2009): the loop
runs i = n-1 down to 0 inserting before the first child, so the block
reads 0 … n-1 in strip order; the scroll offset is compensated by the
added width. -/
def addClonesAtStart (G : InfiniteGeom) (st : AutoplayState) : AutoplayState :=
  { strip :=
      (List.range G.totalSlides).map (fun i => .infiniteClone i) ++ st.strip
    scrollLeft :=
      st.scrollLeft + G.totalSlides * (G.slideOffsetWidth + G.gap) }

/-- Stable insertion into a list sorted by descending key, modelling the
host sort with comparator distanceB - distanceA. -/
def insertByKeyDesc (key : ℕ → ℚ) (x : ℕ) : List ℕ → List ℕ
  | [] => [x]
  | y :: ys =>
      if key y < key x then x :: y :: ys else y :: insertByKeyDesc key x ys

/-- Sort a list of strip indices by descending key. -/
def sortByKeyDesc (key : ℕ → ℚ) : List ℕ → List ℕ
  | [] => []
  | x :: xs => insertByKeyDesc key x (sortByKeyDesc key xs)

/-- Embedding of cleanupClonesForAutoplay (part_001 lines 2016-2075).
Nothing happens at or below 4 cycles of clones; above that, clones wholly
outside a two-viewport buffer around the view are collected, sorted most
distant first, and all but one cycle of them removed; removals left of
the offset are compensated.  The removal loop of the source re-reads
offsetLeft from the live layout after earlier removals; the model uses
the offsets at entry, which only affects the compensation amount and
which of the selected clones go, not how many. -/
def cleanupClonesForAutoplay (G : InfiniteGeom) (st : AutoplayState) :
    AutoplayState :=
  let cloneIdxs :=
    (st.strip.enum.filter (fun p => p.2.isInfiniteClone)).map Prod.fst
  let maxAllowedClones := G.totalSlides * 4
  if cloneIdxs.length ≤ maxAllowedClones then st
  else
    let scrollLeft := st.scrollLeft
    let keepBuffer := G.containerWidth * 2
    let viewportLeft := scrollLeft - keepBuffer
    let viewportRight := scrollLeft + G.containerWidth + keepBuffer
    let outside := cloneIdxs.filter (fun i =>
      childOffsetLeft G i + G.slideOffsetWidth < viewportLeft ∨
        viewportRight < childOffsetLeft G i)
    let dist := fun i =>
      |childOffsetLeft G i + G.slideOffsetWidth / 2 -
        (scrollLeft + G.containerWidth / 2)|
    let sorted := sortByKeyDesc dist outside
    let maxToRemove := outside.length - G.totalSlides
    let removed := sorted.take (min sorted.length maxToRemove)
    let scrollAdjustment :=
      ((removed.filter (fun i => childOffsetLeft G i < scrollLeft)).length : ℚ) *
        (G.slideOffsetWidth + G.gap)
    let strip' :=
      (st.strip.enum.filter (fun p => ¬removed.contains p.1)).map Prod.snd
    { strip := strip'
      scrollLeft :=
        if 0 < scrollAdjustment then scrollLeft - scrollAdjustment
        else scrollLeft }

/-- Embedding of the 0.0.1 handleInfiniteScroll (part_001 lines
1933-1963): within one viewport of either strip end and below 3 cycles of
clones, add a cycle on that side; then cleanupDistantClones runs, which
for an autoplay slider dispatches to cleanupClonesForAutoplay (part_001
lines 2082-2087). -/
def handleInfiniteScrollGrowth (G : InfiniteGeom) (st : AutoplayState) :
    AutoplayState :=
  let addBuffer := G.containerWidth
  let maxClones := G.totalSlides * 3
  let trackWidth := trackScrollWidth G st.strip
  let distanceFromEnd := trackWidth - (st.scrollLeft + G.containerWidth)
  let st1 :=
    if distanceFromEnd < addBuffer ∧ cloneCount st.strip < maxClones then
      addClonesAtEnd G st
    else st
  let st2 :=
    if st1.scrollLeft < addBuffer ∧ cloneCount st1.strip < maxClones then
      addClonesAtStart G st1
    else st1
  cleanupClonesForAutoplay G st2

/-- One autoplay tick of an infinite-mode slider (part_001 lines
2366-2380): the interval callback scrolls forward by
slidesToScroll * (slideOffsetWidth + gap) and calls
cleanupClonesForAutoplay; the scroll then reaches the debounced
scroll-end handler, which runs the 0.0.1 handleInfiniteScroll. -/
def autoplayTick (G : InfiniteGeom) (st : AutoplayState) : AutoplayState :=
  let scrollAmount := (G.slideOffsetWidth + G.gap) * G.slidesToScroll
  let st1 : AutoplayState := { st with scrollLeft := st.scrollLeft + scrollAmount }
  let st2 := cleanupClonesForAutoplay G st1
  handleInfiniteScrollGrowth G st2

/-- The strip right after the 0.0.1 setupTrueInfinite (part_001 lines
1764-1805), which clones slidesToShow + 1 items per side with the same
index pattern as the infinite branch of createClonedSlides. -/
def initialInfiniteStrip (n slidesToShow : ℕ) : List TrackChild :=
  createClonedSlidesInfinite n (slidesToShow + 1)

/-! ## Concrete instances used by witnesses and counterexamples -/

/-- An infinite-mode context that has completed setup, sitting inside the
left boundary buffer. -/
def c1ctx : InfiniteContext :=
  { infiniteScrollSetup := true
    totalSlides := 2
    slideOffsetWidth := 10
    gap := 0
    slidePositions := [0, 10, 20, 30, 40, 50]
    initialCloneCount := 2
    track := ⟨5, ""⟩ }

/-- The autoplay geometry of a 2-slide infinite slider. -/
def c2geom : InfiniteGeom :=
  { totalSlides := 2
    slideOffsetWidth := 10
    gap := 0
    containerWidth := 20
    trackPaddingLeft := 0
    slidesToScroll := 1 }

/-- A plain-mode slider with 5 real items showing 3, where the container
fits exactly the configured 3 slides. -/
def c5ctx : NavContext :=
  { infinite := false
    bounceBack := false
    centerMode := false
    slidesToShow := 3
    slidesToScroll := 1
    gap := 0
    totalSlides := 5
    currentSlide := 0
    slidePositions := [0, 100, 200, 300, 400]
    slides := [⟨0, 100⟩, ⟨100, 100⟩, ⟨200, 100⟩, ⟨300, 100⟩, ⟨400, 100⟩]
    allSlides := none
    trackScrollLeft := 0
    trackOffsetWidth := 300
    trackPaddingLeft := 0
    trackPaddingRight := 0
    containerOffsetWidth := 300
    containerPaddingLeft := 0
    containerPaddingRight := 0 }

/-- A bounce-mode slider with 4 real items showing 2, at logical index
0. -/
def c6ctx : NavContext :=
  { infinite := false
    bounceBack := true
    centerMode := false
    slidesToShow := 2
    slidesToScroll := 1
    gap := 0
    totalSlides := 4
    currentSlide := 0
    slidePositions := [0, 10, 20, 30, 40, 50, 60, 70]
    slides := [⟨20, 10⟩, ⟨30, 10⟩, ⟨40, 10⟩, ⟨50, 10⟩]
    allSlides := some [⟨0, 10⟩, ⟨10, 10⟩, ⟨20, 10⟩, ⟨30, 10⟩, ⟨40, 10⟩, ⟨50, 10⟩, ⟨60, 10⟩, ⟨70, 10⟩]
    trackScrollLeft := 0
    trackOffsetWidth := 20
    trackPaddingLeft := 0
    trackPaddingRight := 0
    containerOffsetWidth := 20
    containerPaddingLeft := 0
    containerPaddingRight := 0 }

/-- A plain-mode slider with 3 real items for exercising goToSlide. -/
def c7ctx : NavContext :=
  { infinite := false
    bounceBack := false
    centerMode := false
    slidesToShow := 2
    slidesToScroll := 1
    gap := 0
    totalSlides := 3
    currentSlide := 0
    slidePositions := [0, 100, 200]
    slides := [⟨0, 100⟩, ⟨100, 100⟩, ⟨200, 100⟩]
    allSlides := none
    trackScrollLeft := 0
    trackOffsetWidth := 200
    trackPaddingLeft := 0
    trackPaddingRight := 0
    containerOffsetWidth := 200
    containerPaddingLeft := 0
    containerPaddingRight := 0 }

/-- A bounce-mode slider (4 real items, 2 clones per side) with every
tracked timer scheduled, about to be destroyed. -/
def bounceTeardownExample : SliderState :=
  ⟨true, true, true, setupBounceBack 4 2⟩

/-! ## General lemmas about the embedding -/

theorem appendLoop_eq (c : ℕ) (f : ℕ → TrackChild) (track : List TrackChild) :
    appendLoop c f track = track ++ (List.range c).map f := by
  unfold appendLoop
  generalize List.range c = l
  induction l generalizing track with
  | nil => simp
  | cons x xs ih => simp [ih]

theorem prependLoop_eq (c : ℕ) (f : ℕ → TrackChild) (track : List TrackChild) :
    prependLoop c f track = ((List.range c).map f).reverse ++ track := by
  unfold prependLoop
  generalize List.range c = l
  induction l generalizing track with
  | nil => simp
  | cons x xs ih => simp [ih]

theorem reverse_map_range {α : Type} (c : ℕ) (f : ℕ → α) :
    ((List.range c).map f).reverse = (List.range c).map (fun p => f (c - 1 - p)) := by
  apply List.ext_getElem
  · simp
  · intro i h1 h2
    simp [List.getElem_reverse]

theorem getD_map_range {α : Type} (c i : ℕ) (f : ℕ → α) (d : α) (h : i < c) :
    ((List.range c).map f).getD i d = f i := by
  rw [List.getD_eq_getElem _ _ (by simpa using h)]
  simp

/-! ## Theorems for the claims -/

/-- Claim C3: the layout computation returns the base width
(containerWidth - gap*(slidesToShow-1)) / slidesToShow when that base is
at least the parsed minimum (or the minimum is 0), clamps up to the
minimum otherwise, and in both cases centers with
leftPadding = max 0 ((containerWidth - neededWidth)/2); in particular for
container 1200, 4 slides, gap 24 and no minimum it returns width 282 and
padding 0. -/
theorem calculateSlideWidth_spec
    (containerWidth slidesToShow gap minSlideWidth : ℚ)
    (hcw : 0 < containerWidth) (hs : 1 ≤ slidesToShow) (hg : 0 ≤ gap)
    (hm : 0 ≤ minSlideWidth) :
    (((minSlideWidth = 0 ∨
        minSlideWidth ≤ (containerWidth - (slidesToShow - 1) * gap) / slidesToShow) →
        (calculateSlideWidth containerWidth slidesToShow gap minSlideWidth).slideWidth =
          (containerWidth - (slidesToShow - 1) * gap) / slidesToShow) ∧
      (0 < minSlideWidth →
        (containerWidth - (slidesToShow - 1) * gap) / slidesToShow < minSlideWidth →
        (calculateSlideWidth containerWidth slidesToShow gap minSlideWidth).slideWidth =
          minSlideWidth) ∧
      (calculateSlideWidth containerWidth slidesToShow gap minSlideWidth).leftPadding =
        max 0 ((containerWidth -
          ((calculateSlideWidth containerWidth slidesToShow gap minSlideWidth).slideWidth *
              slidesToShow + (slidesToShow - 1) * gap)) / 2)) ∧
    calculateSlideWidth 1200 4 24 0 = ⟨282, 1200, 0⟩ := by
  have hp : parseMinSlideWidth minSlideWidth = minSlideWidth := by
    unfold parseMinSlideWidth
    split
    · simp_all
    · rfl
  refine ⟨⟨?_, ?_, ?_⟩, by unfold calculateSlideWidth parseMinSlideWidth; norm_num⟩
  · intro h
    unfold calculateSlideWidth
    rw [hp]
    dsimp only
    split_ifs with hif
    · rcases h with h | h
      · exact absurd hif.1 (by simp [h])
      · exact absurd hif.2 (not_lt.mpr h)
    · rfl
  · intro h1 h2
    unfold calculateSlideWidth
    rw [hp]
    dsimp only
    split_ifs with hif
    · rfl
    · exact absurd ⟨h1, h2⟩ hif
  · unfold calculateSlideWidth
    rw [hp]
    dsimp only
    split_ifs with hif
    · rfl
    · rfl

/-- Witness for C3: the concrete scenario of the claim, through the
theorem. -/
theorem calculateSlideWidth_spec_witness :
    calculateSlideWidth 1200 4 24 0 = ⟨282, 1200, 0⟩ :=
  (calculateSlideWidth_spec 1200 4 24 0 (by norm_num) (by norm_num)
    (by norm_num) (by norm_num)).2

theorem foldl_guard_filter (width : ℚ) (l : List Breakpoint) (o : Options) :
    l.foldl
      (fun acc bp =>
        if width ≤ bp.breakpoint then objectAssignSettings acc bp.settings
        else acc) o =
      (l.filter (fun bp => width ≤ bp.breakpoint)).foldl
        (fun acc bp => objectAssignSettings acc bp.settings) o := by
  induction l generalizing o with
  | nil => rfl
  | cons bp rest ih =>
    by_cases h : width ≤ bp.breakpoint
    · simp [List.filter_cons, h, ih]
    · simp [List.filter_cons, h, ih]

/-- Claim C4: for every options object and viewport width, the full
cascade over all breakpoints sorted largest first, overriding whenever
width ≤ threshold, equals folding only the breakpoints with threshold at
least the width, in descending threshold order; breakpoints below the
width never affect the result. -/
theorem applyResponsiveSettings_eq_filtered (width : ℚ) (options : Options) :
    applyResponsiveSettings width options =
      ((sortBreakpointsDesc options.responsive).filter
          (fun bp => width ≤ bp.breakpoint)).foldl
        (fun currentOptions bp => objectAssignSettings currentOptions bp.settings)
        options := by
  unfold applyResponsiveSettings
  exact foldl_guard_filter width (sortBreakpointsDesc options.responsive) options

theorem objectAssignPatch_empty (o : Options) :
    objectAssignPatch o emptyPatch = o := rfl

/-- Claim C9: with an invalid inline attribute, buildConfig emits the
diagnostic, discards the fragment and returns exactly defaults overridden
by the passed options, never throwing (the embedding is a total
function); with a valid attribute the precedence is defaults, then inline
config, then constructor options. -/
theorem buildConfig_spec (attr : DataAttr) (passed : OptionsPatch) :
    (attr = .invalidJson →
      buildConfig attr passed = ⟨objectAssignPatch DEFAULT_CONFIG passed, true⟩) ∧
    (∀ c, attr = .valid c →
      buildConfig attr passed =
        ⟨objectAssignPatch (objectAssignPatch DEFAULT_CONFIG c) passed, false⟩) ∧
    (∀ c, attr = .valid c →
      (buildConfig attr passed).config.slidesToShow =
        passed.slidesToShow.getD (c.slidesToShow.getD DEFAULT_CONFIG.slidesToShow) ∧
      (buildConfig attr passed).config.gap =
        passed.gap.getD (c.gap.getD DEFAULT_CONFIG.gap) ∧
      (buildConfig attr passed).config.autoplay =
        passed.autoplay.getD (c.autoplay.getD DEFAULT_CONFIG.autoplay) ∧
      (buildConfig attr passed).config.responsive =
        passed.responsive.getD (c.responsive.getD DEFAULT_CONFIG.responsive)) ∧
    (attr = .missing →
      buildConfig attr passed = ⟨objectAssignPatch DEFAULT_CONFIG passed, false⟩) := by
  refine ⟨?_, ?_, ?_, ?_⟩
  · rintro rfl
    rw [show buildConfig .invalidJson passed =
      ⟨objectAssignPatch (objectAssignPatch DEFAULT_CONFIG emptyPatch) passed, true⟩ from rfl]
    rw [objectAssignPatch_empty]
  · rintro c rfl
    rfl
  · rintro c rfl
    exact ⟨rfl, rfl, rfl, rfl⟩
  · rintro rfl
    rw [show buildConfig .missing passed =
      ⟨objectAssignPatch (objectAssignPatch DEFAULT_CONFIG emptyPatch) passed, false⟩ from rfl]
    rw [objectAssignPatch_empty]

/-- Witness for C9: the invalid-attribute branch at a concrete input,
through the theorem. -/
theorem buildConfig_spec_witness :
    buildConfig .invalidJson emptyPatch =
      ⟨objectAssignPatch DEFAULT_CONFIG emptyPatch, true⟩ :=
  (buildConfig_spec .invalidJson emptyPatch).1 rfl

/-- Claim C1: once setup has completed, handleInfiniteScroll teleports an
offset at or inside the boundary buffer by exactly one real-item-cycle
width totalSlides * (slideOffsetWidth + gap) in the matching direction
(so the new offset differs from the old one by an integer multiple of the
cycle width), performing the jump with scroll behavior temporarily set to
auto and restored afterwards; strictly between the boundaries the offset
is unchanged. -/
theorem handleInfiniteScroll_teleports (ctx : InfiniteContext)
    (hsetup : ctx.infiniteScrollSetup = true) :
    ((ctx.track.scrollLeft ≤ (ctx.slideOffsetWidth + ctx.gap) * 2 →
      (handleInfiniteScroll ctx).1.track.scrollLeft =
        ctx.track.scrollLeft + (ctx.totalSlides : ℚ) * (ctx.slideOffsetWidth + ctx.gap) ∧
      (∃ k : ℤ, (handleInfiniteScroll ctx).1.track.scrollLeft =
        ctx.track.scrollLeft + k * ((ctx.totalSlides : ℚ) * (ctx.slideOffsetWidth + ctx.gap))) ∧
      (handleInfiniteScroll ctx).2 =
        some (seamlessJump ctx.track
          (ctx.track.scrollLeft + (ctx.totalSlides : ℚ) * (ctx.slideOffsetWidth + ctx.gap)))) ∧
    ((ctx.slideOffsetWidth + ctx.gap) * 2 < ctx.track.scrollLeft →
      ctx.slidePositions.getD (ctx.initialCloneCount + ctx.totalSlides) 0 -
          (ctx.slideOffsetWidth + ctx.gap) * 2 ≤ ctx.track.scrollLeft →
      (handleInfiniteScroll ctx).1.track.scrollLeft =
        ctx.track.scrollLeft - (ctx.totalSlides : ℚ) * (ctx.slideOffsetWidth + ctx.gap) ∧
      (∃ k : ℤ, (handleInfiniteScroll ctx).1.track.scrollLeft =
        ctx.track.scrollLeft + k * ((ctx.totalSlides : ℚ) * (ctx.slideOffsetWidth + ctx.gap))) ∧
      (handleInfiniteScroll ctx).2 =
        some (seamlessJump ctx.track
          (ctx.track.scrollLeft - (ctx.totalSlides : ℚ) * (ctx.slideOffsetWidth + ctx.gap)))) ∧
    ((ctx.slideOffsetWidth + ctx.gap) * 2 < ctx.track.scrollLeft →
      ctx.track.scrollLeft <
        ctx.slidePositions.getD (ctx.initialCloneCount + ctx.totalSlides) 0 -
          (ctx.slideOffsetWidth + ctx.gap) * 2 →
      handleInfiniteScroll ctx = (ctx, none))) ∧
    (∀ j, (handleInfiniteScroll ctx).2 = some j →
      j.behaviorDuringJump = "auto" ∧
      (handleInfiniteScroll ctx).1.track.scrollBehavior =
        (if ctx.track.scrollBehavior = "" then "smooth"
         else ctx.track.scrollBehavior)) := by
  unfold handleInfiniteScroll
  rw [hsetup]
  dsimp only
  rw [if_neg (by simp)]
  by_cases h1 : ctx.track.scrollLeft ≤ (ctx.slideOffsetWidth + ctx.gap) * 2
  · rw [if_pos h1]
    refine ⟨⟨fun _ => ⟨rfl, ⟨1, ?_⟩, rfl⟩,
      fun hlt _ => absurd h1 (not_le.mpr hlt),
      fun hlt _ => absurd h1 (not_le.mpr hlt)⟩, ?_⟩
    · show ctx.track.scrollLeft +
        (ctx.totalSlides : ℚ) * (ctx.slideOffsetWidth + ctx.gap) = _
      ring
    · rintro j hj
      injection hj with hj
      subst hj
      exact ⟨rfl, rfl⟩
  · rw [if_neg h1]
    by_cases h2 : ctx.slidePositions.getD (ctx.initialCloneCount + ctx.totalSlides) 0 -
        (ctx.slideOffsetWidth + ctx.gap) * 2 ≤ ctx.track.scrollLeft
    · rw [if_pos h2]
      refine ⟨⟨fun hle => absurd hle h1,
        fun _ _ => ⟨rfl, ⟨-1, ?_⟩, rfl⟩,
        fun _ hlt => absurd h2 (not_le.mpr hlt)⟩, ?_⟩
      · show ctx.track.scrollLeft -
          (ctx.totalSlides : ℚ) * (ctx.slideOffsetWidth + ctx.gap) = _
        ring
      · rintro j hj
        injection hj with hj
        subst hj
        exact ⟨rfl, rfl⟩
    · rw [if_neg h2]
      refine ⟨⟨fun hle => absurd hle h1,
        fun _ hge => absurd hge h2,
        fun _ _ => rfl⟩, ?_⟩
      rintro j hj
      exact absurd hj (by simp)

/-- Witness for C1: a concrete setup-complete context inside the left
buffer teleports right by one cycle, through the theorem. -/
theorem handleInfiniteScroll_teleports_witness :
    (handleInfiniteScroll c1ctx).1.track.scrollLeft = 25 := by
  have h :=
    ((handleInfiniteScroll_teleports c1ctx rfl).1.1 (by norm_num [c1ctx])).1
  rw [h]
  norm_num [c1ctx]

/-- Claim C7: goToSlide is a no-op in infinite mode; for a non-infinite
slider an out-of-range index returns with no scroll request and no state
change (the embedding is a total function, so no input raises); an
in-range index requests a smooth scroll to the position computed from
slidePositions (shifted by the bounce clone block, plus the centering
adjustment when centerMode is on) and sets currentSlide to the index
immediately. -/
theorem goToSlide_spec (ctx : NavContext) (idx : ℤ) :
    (ctx.infinite = true → goToSlide ctx idx = ⟨none, ctx.currentSlide⟩) ∧
    (ctx.infinite = false → (idx < 0 ∨ ctx.totalSlides ≤ idx) →
      goToSlide ctx idx = ⟨none, ctx.currentSlide⟩) ∧
    (ctx.infinite = false → 0 ≤ idx → idx < ctx.totalSlides →
      goToSlide ctx idx =
        ⟨some
          ⟨(if ctx.centerMode then
              (if ctx.bounceBack then
                ctx.slidePositions.getD (max ctx.slidesToShow 2 + idx).toNat 0
               else ctx.slidePositions.getD idx.toNat 0) -
                (ctx.containerOffsetWidth - ctx.containerPaddingLeft -
                  ctx.containerPaddingRight) / 2 +
                (ctx.slides.headD ⟨0, 0⟩).offsetWidth / 2 -
                ctx.containerPaddingLeft
            else
              (if ctx.bounceBack then
                ctx.slidePositions.getD (max ctx.slidesToShow 2 + idx).toNat 0
               else ctx.slidePositions.getD idx.toNat 0)), true⟩, idx⟩) := by
  refine ⟨?_, ?_, ?_⟩
  · intro h
    unfold goToSlide
    rw [if_pos h]
  · intro h hrange
    unfold goToSlide
    rw [if_neg (by simp [h]), if_pos hrange]
  · intro h h0 hT
    unfold goToSlide
    rw [if_neg (by simp [h]), if_neg (by omega)]

/-- Witness for C7: an in-range index on a concrete plain slider,
through the theorem. -/
theorem goToSlide_spec_witness :
    goToSlide c7ctx 1 = ⟨some ⟨100, true⟩, 1⟩ := by
  have h := (goToSlide_spec c7ctx 1).2.2 rfl (by norm_num) (by norm_num [c7ctx])
  simpa [c7ctx] using h

/-- Claim C5: in plain mode next clamps the new index at
totalSlides - slidesToShow (the effective slidesToShow of
getActualSlidesToShow) and prev clamps at 0, so the current index never
leaves that interval; and on a 5-item slider showing 3, scrolling 1,
three next calls from index 0 follow the sequence 0, 1, 2, 2. -/
theorem plain_mode_clamp (ctx : NavContext)
    (hinf : ctx.infinite = false) (hb : ctx.bounceBack = false)
    (hact1 : 1 ≤ getActualSlidesToShow ctx.containerOffsetWidth ctx.slides
      ctx.gap ctx.slidesToShow)
    (hactT : getActualSlidesToShow ctx.containerOffsetWidth ctx.slides
      ctx.gap ctx.slidesToShow ≤ ctx.totalSlides)
    (hscroll : 0 ≤ ctx.slidesToScroll)
    (hcur0 : 0 ≤ ctx.currentSlide)
    (hcurT : ctx.currentSlide ≤ ctx.totalSlides -
      getActualSlidesToShow ctx.containerOffsetWidth ctx.slides ctx.gap
        ctx.slidesToShow) :
    ((0 ≤ (next ctx).currentSlide ∧
      (next ctx).currentSlide ≤ ctx.totalSlides -
        getActualSlidesToShow ctx.containerOffsetWidth ctx.slides ctx.gap
          ctx.slidesToShow) ∧
     (0 ≤ (prev ctx).currentSlide ∧
      (prev ctx).currentSlide ≤ ctx.totalSlides -
        getActualSlidesToShow ctx.containerOffsetWidth ctx.slides ctx.gap
          ctx.slidesToShow)) ∧
    ((stepNext c5ctx).currentSlide = 1 ∧
     (stepNext (stepNext c5ctx)).currentSlide = 2 ∧
     (stepNext (stepNext (stepNext c5ctx))).currentSlide = 2) := by
  have hin : ¬(ctx.infinite = true) := by simp [hinf]
  have hb' : ¬(ctx.bounceBack = true) := by simp [hb]
  have hgo : ∀ idx : ℤ, 0 ≤ idx → idx < ctx.totalSlides →
      (goToSlide ctx idx).currentSlide = idx := by
    intro idx h0 hT
    unfold goToSlide
    rw [if_neg hin, if_neg (by omega)]
  have hnext : (next ctx).currentSlide =
      min (ctx.currentSlide + ctx.slidesToScroll)
        (ctx.totalSlides - getActualSlidesToShow ctx.containerOffsetWidth
          ctx.slides ctx.gap ctx.slidesToShow) := by
    unfold next
    rw [if_neg hin]
    dsimp only
    rw [if_neg hb']
    exact hgo _ (by omega) (by omega)
  have hprev : (prev ctx).currentSlide =
      max (ctx.currentSlide - ctx.slidesToScroll) 0 := by
    unfold prev
    rw [if_neg hin]
    dsimp only
    rw [if_neg hb']
    exact hgo _ (by omega) (by omega)
  refine ⟨⟨⟨?_, ?_⟩, ?_, ?_⟩, ?_⟩
  · rw [hnext]; omega
  · rw [hnext]; omega
  · rw [hprev]; omega
  · rw [hprev]; omega
  · have hA : getActualSlidesToShow (300 : ℚ)
        [⟨0, 100⟩, ⟨100, 100⟩, ⟨200, 100⟩, ⟨300, 100⟩, ⟨400, 100⟩] 0 3 = 3 := by
      unfold getActualSlidesToShow
      norm_num [List.headD]
    have step : ∀ cur : ℤ, 0 ≤ cur → cur < 5 →
        (next { c5ctx with currentSlide := cur }).currentSlide =
          min (cur + 1) 2 := by
      intro cur h0 h5
      simp only [next, goToSlide, c5ctx]
      norm_num
      rw [hA]
      rw [if_neg (by omega)]
      norm_num
    have h1 : (next c5ctx).currentSlide = 1 := by
      have h := step 0 le_rfl (by norm_num)
      norm_num at h
      exact h
    have e1 : stepNext c5ctx = { c5ctx with currentSlide := 1 } := by
      unfold stepNext
      rw [h1]
    have h2 : (next { c5ctx with currentSlide := (1 : ℤ) }).currentSlide = 2 := by
      have h := step 1 (by norm_num) (by norm_num)
      norm_num at h
      exact h
    have e2 : stepNext (stepNext c5ctx) = { c5ctx with currentSlide := 2 } := by
      rw [e1]
      unfold stepNext
      rw [h2]
    have h3 : (next { c5ctx with currentSlide := (2 : ℤ) }).currentSlide = 2 := by
      have h := step 2 (by norm_num) (by norm_num)
      norm_num at h
      exact h
    refine ⟨?_, ?_, ?_⟩
    · rw [show (stepNext c5ctx).currentSlide =
        ({ c5ctx with currentSlide := 1 } : NavContext).currentSlide from
          congrArg _ e1]
    · rw [show (stepNext (stepNext c5ctx)).currentSlide =
        ({ c5ctx with currentSlide := 2 } : NavContext).currentSlide from
          congrArg _ e2]
    · rw [show stepNext (stepNext (stepNext c5ctx)) =
        stepNext { c5ctx with currentSlide := 2 } from congrArg _ e2]
      unfold stepNext
      rw [h3]

/-- Witness for C5: the clamp bounds at the concrete 5-item slider,
through the theorem. -/
theorem plain_mode_clamp_witness :
    0 ≤ (next c5ctx).currentSlide ∧
      (next c5ctx).currentSlide ≤ c5ctx.totalSlides -
        getActualSlidesToShow c5ctx.containerOffsetWidth c5ctx.slides
          c5ctx.gap c5ctx.slidesToShow :=
  ((plain_mode_clamp c5ctx rfl rfl
    (by simp only [c5ctx]; unfold getActualSlidesToShow; norm_num [List.headD])
    (by simp only [c5ctx]; unfold getActualSlidesToShow; norm_num [List.headD])
    (by norm_num [c5ctx])
    (by norm_num [c5ctx])
    (by simp only [c5ctx]; unfold getActualSlidesToShow; norm_num [List.headD])).1).1

/-- Claim C6: in bounce mode next maps the logical index by
(currentSlide + slidesToScroll) mod totalSlides and prev wraps a negative
result by adding totalSlides; in particular with 4 items and scroll step
1, prev from index 0 lands on index 3. -/
theorem bounce_mode_wrap (ctx : NavContext)
    (hinf : ctx.infinite = false) (hb : ctx.bounceBack = true)
    (hT : 0 < ctx.totalSlides) (hcur0 : 0 ≤ ctx.currentSlide)
    (hcurT : ctx.currentSlide < ctx.totalSlides)
    (hs0 : 0 ≤ ctx.slidesToScroll)
    (hsT : ctx.slidesToScroll ≤ ctx.totalSlides) :
    ((next ctx).currentSlide =
      (ctx.currentSlide + ctx.slidesToScroll) % ctx.totalSlides ∧
     (prev ctx).currentSlide =
      (if ctx.currentSlide - ctx.slidesToScroll < 0 then
        ctx.totalSlides + (ctx.currentSlide - ctx.slidesToScroll)
       else ctx.currentSlide - ctx.slidesToScroll)) ∧
    (prev c6ctx).currentSlide = 3 := by
  have hin : ¬(ctx.infinite = true) := by simp [hinf]
  have hgo : ∀ idx : ℤ, 0 ≤ idx → idx < ctx.totalSlides →
      (goToSlide ctx idx).currentSlide = idx := by
    intro idx h0 hTidx
    unfold goToSlide
    rw [if_neg hin, if_neg (by omega)]
  have htm : (ctx.currentSlide + ctx.slidesToScroll).tmod ctx.totalSlides =
      (ctx.currentSlide + ctx.slidesToScroll) % ctx.totalSlides :=
    Int.tmod_eq_emod (by omega) (by omega)
  have hm1 := Int.emod_nonneg (ctx.currentSlide + ctx.slidesToScroll)
    (by omega : ctx.totalSlides ≠ 0)
  have hm2 := Int.emod_lt_of_pos (ctx.currentSlide + ctx.slidesToScroll) hT
  refine ⟨⟨?_, ?_⟩, by decide⟩
  · have hnext : (next ctx).currentSlide =
        (ctx.currentSlide + ctx.slidesToScroll).tmod ctx.totalSlides := by
      unfold next
      rw [if_neg hin]
      dsimp only
      rw [if_pos hb]
      exact hgo _ (by omega) (by omega)
    rw [hnext, htm]
  · have hprev : (prev ctx).currentSlide =
        (if ctx.currentSlide - ctx.slidesToScroll < 0 then
          ctx.totalSlides + (ctx.currentSlide - ctx.slidesToScroll)
         else ctx.currentSlide - ctx.slidesToScroll) := by
      unfold prev
      rw [if_neg hin]
      dsimp only
      rw [if_pos hb]
      by_cases hneg : ctx.currentSlide - ctx.slidesToScroll < 0
      · rw [if_pos hneg]
        exact hgo _ (by omega) (by omega)
      · rw [if_neg hneg]
        exact hgo _ (by omega) (by omega)
    exact hprev

/-- Witness for C6: the next relation at the concrete 4-item bounce
slider, through the theorem. -/
theorem bounce_mode_wrap_witness :
    (next c6ctx).currentSlide =
      (c6ctx.currentSlide + c6ctx.slidesToScroll) % c6ctx.totalSlides :=
  ((bounce_mode_wrap c6ctx rfl rfl (by decide) (by decide) (by decide)
    (by decide) (by decide)).1).1

theorem tmod_eq_self_of_lt {x n : ℤ} (h0 : 0 ≤ x) (h1 : x < n) :
    x.tmod n = x := by
  rw [Int.tmod_eq_emod h0 (le_trans h0 (le_of_lt h1))]
  exact Int.emod_eq_of_lt h0 h1

/-- Counterexample for C8: in the infinite branch of createClonedSlides
with 3 real items and 2 clones per side, the child immediately before the
first real item (strip position 1; position 2 is the first real item) is
the clone of item 1, not of item totalSlides - 1 = 2 as the claim states
for every infinite-mode clone setup. -/
theorem createClonedSlides_reversed_tail_cex :
    (createClonedSlidesInfinite 3 2).getD 2 (.real 0) = TrackChild.real 0 ∧
    (createClonedSlidesInfinite 3 2).getD 1 (.real 0) =
      TrackChild.infiniteClone 1 ∧
    TrackChild.infiniteClone (1 : ℤ) ≠
      TrackChild.infiniteClone ((3 : ℤ) - 1) := by decide

/-- Claim C8 as amended: in setupTrueInfinite every clone carries the
originalIndex of its source and the strip reads
prepended block, real items, appended block, where the prepended block in
strip order is the ascending tail of the real sequence (position c-1-j
holds the clone of n-1-j%n, so the clone immediately before the first
real item has originalIndex n-1) and the appended block starts at
originalIndex 0 cycling forward; the infinite branch of
createClonedSlides instead prepends the tail clones in descending order
(position p holds the clone of n-1-p). -/
theorem clone_setup_layout (n c : ℕ) (hn : 1 ≤ n) (hc : c ≤ n) :
    (setupTrueInfinite n c =
      ((List.range c).map fun p =>
        TrackChild.infiniteClone ((n - 1 - (c - 1 - p) % n : ℕ) : ℤ)) ++
      (realSlides n ++
        ((List.range c).map fun i =>
          TrackChild.infiniteClone ((i % n : ℕ) : ℤ)))) ∧
    (∀ j, j < c →
      (setupTrueInfinite n c).getD (c - 1 - j) (.real 0) =
        TrackChild.infiniteClone ((n - 1 - j % n : ℕ) : ℤ)) ∧
    (∀ i, i < c →
      (setupTrueInfinite n c).getD (c + n + i) (.real 0) =
        TrackChild.infiniteClone ((i % n : ℕ) : ℤ)) ∧
    (createClonedSlidesInfinite n c =
      ((List.range c).map fun p =>
        TrackChild.infiniteClone ((n - 1 - p : ℕ) : ℤ)) ++
      (realSlides n ++
        ((List.range c).map fun i =>
          TrackChild.infiniteClone ((i % n : ℕ) : ℤ)))) := by
  have hTrue : setupTrueInfinite n c =
      ((List.range c).map fun p =>
        TrackChild.infiniteClone ((n - 1 - (c - 1 - p) % n : ℕ) : ℤ)) ++
      (realSlides n ++
        ((List.range c).map fun i =>
          TrackChild.infiniteClone ((i % n : ℕ) : ℤ))) := by
    unfold setupTrueInfinite
    rw [appendLoop_eq, prependLoop_eq, reverse_map_range]
    congr 1
    apply List.map_congr_left
    intro p hp
    simp only [List.mem_range] at hp
    congr 2
    have hlt : n - 1 - (c - 1 - p) % n < n := by omega
    exact Nat.mod_eq_of_lt hlt
  refine ⟨hTrue, ?_, ?_, ?_⟩
  · intro j hj
    rw [hTrue]
    rw [List.getD_append _ _ _ _ (by simp; omega)]
    rw [getD_map_range _ _ _ _ (by omega)]
    simp only [TrackChild.infiniteClone.injEq, Nat.cast_inj]
    have : c - 1 - (c - 1 - j) = j := by omega
    rw [this]
  · intro i hi
    rw [hTrue, ← List.append_assoc]
    rw [List.getD_append_right _ _ _ _ (by
      simp only [List.length_append, List.length_map, List.length_range, realSlides]
      omega)]
    have hlen : (((List.range c).map fun p =>
        TrackChild.infiniteClone ((n - 1 - (c - 1 - p) % n : ℕ) : ℤ)) ++
        realSlides n).length = c + n := by
      simp [realSlides]
    rw [hlen]
    have hidx : c + n + i - (c + n) = i := by omega
    rw [hidx, getD_map_range _ _ _ _ hi]
  · unfold createClonedSlidesInfinite
    rw [appendLoop_eq, prependLoop_eq, reverse_map_range]
    congr 1
    apply List.map_congr_left
    intro p hp
    simp only [List.mem_range] at hp
    congr 1
    have harg : (n : ℤ) - c + ((c - 1 - p : ℕ) : ℤ) = ((n - 1 - p : ℕ) : ℤ) := by
      omega
    rw [harg]
    exact tmod_eq_self_of_lt (by omega) (by omega)

/-- Witness for C8: with 3 real items and 3 clones per side, the clone
immediately before the first real item in setupTrueInfinite is the clone
of item 2, through the theorem. -/
theorem clone_setup_layout_witness :
    (setupTrueInfinite 3 3).getD 2 (.real 0) = TrackChild.infiniteClone 2 := by
  have h := (clone_setup_layout 3 3 (by norm_num) (by norm_num)).2.1 0 (by norm_num)
  simpa using h

/-- Claim C10 (divergence demonstration): destroy on a bounce-mode slider
(4 real items, 2 bounce clones per side, all tracked timers scheduled)
clears the autoplay interval and the two tracked timeouts but leaves all
4 bounce clones in the strip, because it only removes children matching
the .infinite-clone selector; the strip after destroy is not just the
real items, contradicting the claim that every synthetic clone is removed
in both infinite and bounce modes. -/
theorem destroy_keeps_bounce_clones :
    ((destroy bounceTeardownExample).strip.filter (·.isBounceClone)).length = 4 ∧
    (destroy bounceTeardownExample).strip ≠ realSlides 4 ∧
    (destroy bounceTeardownExample).autoplayInterval = false ∧
    (destroy bounceTeardownExample).scrollTimeout = false ∧
    (destroy bounceTeardownExample).infiniteScrollTimeout = false := by decide

theorem cloneCount_append (a b : List TrackChild) :
    cloneCount (a ++ b) = cloneCount a + cloneCount b := by
  simp [cloneCount, List.filter_append]

theorem cloneCount_reverse (l : List TrackChild) :
    cloneCount l.reverse = cloneCount l := by
  simp [cloneCount, List.filter_reverse]

theorem cloneCount_realSlides (n : ℕ) : cloneCount (realSlides n) = 0 := by
  unfold cloneCount realSlides
  rw [List.filter_map]
  simp [Function.comp, TrackChild.isInfiniteClone]

theorem cloneCount_map_clone (l : List ℕ) (g : ℕ → ℤ) :
    cloneCount (l.map fun i => TrackChild.infiniteClone (g i)) = l.length := by
  unfold cloneCount
  rw [List.filter_map]
  simp [Function.comp, TrackChild.isInfiniteClone]

theorem cloneCount_sub_filter (strip : List TrackChild)
    (p : ℕ × TrackChild → Bool) :
    cloneCount ((strip.enum.filter p).map Prod.snd) ≤ cloneCount strip := by
  have h1 : (strip.enum.filter p).Sublist strip.enum := List.filter_sublist _
  have h2 := h1.map Prod.snd
  rw [List.enum_map_snd] at h2
  unfold cloneCount
  rw [← List.countP_eq_length_filter, ← List.countP_eq_length_filter]
  exact h2.countP_le _

theorem cloneCount_cleanup_le (G : InfiniteGeom) (st : AutoplayState) :
    cloneCount (cleanupClonesForAutoplay G st).strip ≤ cloneCount st.strip := by
  unfold cleanupClonesForAutoplay
  dsimp only
  split
  · exact le_rfl
  · exact cloneCount_sub_filter st.strip _

theorem cloneCount_addEnd (G : InfiniteGeom) (st : AutoplayState) :
    cloneCount (addClonesAtEnd G st).strip =
      cloneCount st.strip + G.totalSlides := by
  unfold addClonesAtEnd
  dsimp only
  rw [cloneCount_append, cloneCount_map_clone, List.length_range]

theorem cloneCount_addStart (G : InfiniteGeom) (st : AutoplayState) :
    cloneCount (addClonesAtStart G st).strip =
      G.totalSlides + cloneCount st.strip := by
  unfold addClonesAtStart
  dsimp only
  rw [cloneCount_append, cloneCount_map_clone, List.length_range]

theorem cloneCount_growth_le (G : InfiniteGeom) (st : AutoplayState)
    (h : cloneCount st.strip ≤ 4 * G.totalSlides) :
    cloneCount (handleInfiniteScrollGrowth G st).strip ≤ 4 * G.totalSlides := by
  unfold handleInfiniteScrollGrowth
  dsimp only
  refine le_trans (cloneCount_cleanup_le G _) ?_
  by_cases h1 : trackScrollWidth G st.strip -
      (st.scrollLeft + G.containerWidth) < G.containerWidth ∧
      cloneCount st.strip < G.totalSlides * 3
  · rw [if_pos h1]
    obtain ⟨-, h1b⟩ := h1
    by_cases h2 : (addClonesAtEnd G st).scrollLeft < G.containerWidth ∧
        cloneCount (addClonesAtEnd G st).strip < G.totalSlides * 3
    · rw [if_pos h2]
      obtain ⟨-, h2b⟩ := h2
      rw [cloneCount_addEnd] at h2b
      rw [cloneCount_addStart, cloneCount_addEnd]
      omega
    · rw [if_neg h2]
      rw [cloneCount_addEnd]
      omega
  · rw [if_neg h1]
    by_cases h2 : st.scrollLeft < G.containerWidth ∧
        cloneCount st.strip < G.totalSlides * 3
    · rw [if_pos h2]
      obtain ⟨-, h2b⟩ := h2
      rw [cloneCount_addStart]
      omega
    · rw [if_neg h2]
      exact h

theorem cloneCount_tick_le (G : InfiniteGeom) (st : AutoplayState)
    (h : cloneCount st.strip ≤ 4 * G.totalSlides) :
    cloneCount (autoplayTick G st).strip ≤ 4 * G.totalSlides := by
  unfold autoplayTick
  dsimp only
  apply cloneCount_growth_le
  exact le_trans (cloneCount_cleanup_le G _) h

/-- Claim C2: for an infinite-mode autoplay slider of the 0.0.1 class,
starting from the setup strip (slidesToShow + 1 clones per side, with
slidesToShow below the real count as the setup guard requires), after any
number of autoplay ticks, each performing the scroll step, the tick
cleanup, and the scroll-end handler with its growth and cleanup, the
clone count never exceeds 4 times the real item count. -/
theorem autoplay_clone_bound (G : InfiniteGeom) (slidesToShow : ℕ)
    (startScroll : ℚ) (hn : 1 ≤ G.totalSlides)
    (hs : slidesToShow < G.totalSlides) (k : ℕ) :
    cloneCount ((autoplayTick G)^[k]
      ⟨initialInfiniteStrip G.totalSlides slidesToShow, startScroll⟩).strip ≤
      4 * G.totalSlides := by
  have hinit : cloneCount (initialInfiniteStrip G.totalSlides slidesToShow) ≤
      4 * G.totalSlides := by
    unfold initialInfiniteStrip createClonedSlidesInfinite
    rw [appendLoop_eq, prependLoop_eq]
    simp only [cloneCount_append, cloneCount_reverse, cloneCount_realSlides,
      cloneCount_map_clone, List.length_range]
    omega
  induction k with
  | zero => simpa using hinit
  | succ k ih =>
    rw [Function.iterate_succ_apply']
    exact cloneCount_tick_le G _ ih

/-- Witness for C2: three autoplay ticks of a concrete 2-item infinite
slider stay at or below 8 clones, through the theorem. -/
theorem autoplay_clone_bound_witness :
    cloneCount ((autoplayTick c2geom)^[3]
      ⟨initialInfiniteStrip c2geom.totalSlides 1, 0⟩).strip ≤
      4 * c2geom.totalSlides :=
  autoplay_clone_bound c2geom 1 0 (by norm_num [c2geom]) (by norm_num [c2geom]) 3

end NativeScrollSlider
